import Mathlib

/-!
Shallow embedding of the submission pipeline of the `mvp1` repository:
the `handleSubmit` handler of the form page (source file `part_000`),
together with the JS string/number primitives it relies on
(`String.prototype.trim`, `parseFloat`, `isNaN`).

The two asynchronous network calls (storage upload, record insert) are
modelled by splitting the handler at its `await` points into a start
segment and resumption segments; their outcomes are supplied by an
environment record, and the calls made are collected in an effect trace.
-/

namespace Mvp

/-- JS whitespace recognised by `String.prototype.trim` and skipped by
`parseFloat` (the ASCII white-space characters plus no-break space; the
remaining Unicode space characters are irrelevant to the claims). -/
def isJSWhitespace (c : Char) : Bool :=
  c == ' ' || c == '\t' || c == '\n' || c == '\r' || c == '\x0b' || c == '\x0c' || c == '\xa0'

/-- JS `String.prototype.trim`: strip whitespace from both ends. -/
def jsTrim (s : String) : String :=
  String.mk (((s.data.dropWhile isJSWhitespace).reverse.dropWhile isJSWhitespace).reverse)

/-- A JS number as produced by `parseFloat`: NaN, a signed infinity, or a
finite value kept as an exact rational (the claims only involve exactly
representable decimals, so IEEE rounding is not modelled). -/
inductive JSNum where
  | nan
  | posInf
  | negInf
  | fin (q : ℚ)
deriving DecidableEq, Repr

/-- JS `isNaN` on a `parseFloat` result. -/
def JSNum.isNaN : JSNum → Bool
  | .nan => true
  | _ => false

/-- Whether a JS number is a finite value (neither NaN nor an infinity). -/
def JSNum.isFinite : JSNum → Bool
  | .fin _ => true
  | _ => false

/-- Value of a digit string, most significant first. -/
def digitsToNat (ds : List Char) : Nat :=
  ds.foldl (fun a c => 10 * a + (c.toNat - 48)) 0

/-- `10 ^ e` over `ℚ` for a signed exponent. -/
def tenPow (e : Int) : ℚ :=
  if 0 ≤ e then (10 : ℚ) ^ e.toNat else ((10 : ℚ) ^ (-e).toNat)⁻¹

/-- Value of the digit run that follows an exponent marker; an empty run
contributes 0, matching the longest-valid-literal rule of `parseFloat`
(for example `"1e"` parses as `1`). -/
def expDigitsVal (ds : List Char) : Int :=
  (digitsToNat (ds.takeWhile Char.isDigit) : Int)

/-- Signed exponent digits after the `e`/`E` marker. -/
def expSignedVal : List Char → Int
  | '+' :: ds => expDigitsVal ds
  | '-' :: ds => - expDigitsVal ds
  | ds => expDigitsVal ds

/-- Exponent suffix of a JS decimal literal; anything that is not an
`e`/`E` marker contributes exponent 0 (trailing garbage is ignored). -/
def expVal : List Char → Int
  | 'e' :: rest => expSignedVal rest
  | 'E' :: rest => expSignedVal rest
  | _ => 0

/-- The `Digits [. Digits]` mantissa part of a JS decimal literal:
`none` when no digit is present (then `parseFloat` yields NaN), otherwise
the exact value and the remaining characters. -/
def parseDecMantissa (cs : List Char) : Option (ℚ × List Char) :=
  let intPart := cs.takeWhile Char.isDigit
  let rest1 := cs.dropWhile Char.isDigit
  match rest1 with
  | '.' :: rest2 =>
      let fracPart := rest2.takeWhile Char.isDigit
      let rest3 := rest2.dropWhile Char.isDigit
      if intPart.isEmpty && fracPart.isEmpty then none
      else some ((digitsToNat intPart : ℚ) + (digitsToNat fracPart : ℚ) / (10 : ℚ) ^ fracPart.length, rest3)
  | _ =>
      if intPart.isEmpty then none
      else some ((digitsToNat intPart : ℚ), rest1)

/-- Body of `parseFloat` after the sign: the `Infinity` keyword or a
decimal literal with optional exponent; everything after the longest valid
literal is ignored. -/
def parseFloatCore (neg : Bool) (cs : List Char) : JSNum :=
  if cs.take 8 = "Infinity".data then
    if neg then .negInf else .posInf
  else
    match parseDecMantissa cs with
    | none => .nan
    | some (m, rest) =>
        let v := m * tenPow (expVal rest)
        .fin (if neg then -v else v)

/-- JS `parseFloat` (ECMA-262 `StrDecimalLiteral` semantics): skip leading
whitespace, read an optional sign, then the longest valid decimal literal
or `Infinity`; NaN when no literal is present. -/
def parseFloat (s : String) : JSNum :=
  match s.data.dropWhile isJSWhitespace with
  | '+' :: rest => parseFloatCore false rest
  | '-' :: rest => parseFloatCore true rest
  | rest => parseFloatCore false rest

/-! ### Data model (source: form page `part_000`) -/

/-- The `formData` state object (lines 9-16 of the form page): the six text
fields of the draft, each initialised to the empty string. -/
structure FormData where
  productUrl : String
  budget : String
  material : String
  comments : String
  name : String
  phone : String
deriving DecidableEq, Repr

/-- The empty default of `formData` (lines 9-16 and the reset at 130-137). -/
def emptyFormData : FormData :=
  { productUrl := "", budget := "", material := "", comments := "", name := "", phone := "" }

/-- A selected image: only its file name is observable in the handler
(it feeds the storage object name). -/
structure ImageFile where
  name : String
deriving DecidableEq, Repr

/-- The `uploadType` state: `'file' | 'url'` (line 18). -/
inductive UploadType where
  | file
  | url
deriving DecidableEq, Repr

/-- The React state of one form session: `formData`, `selectedImage`,
`uploadType`, `isSubmitting`, `submitError` (lines 9-20). -/
structure SessionState where
  formData : FormData
  selectedImage : Option ImageFile
  uploadType : UploadType
  isSubmitting : Bool
  submitError : String
deriving DecidableEq, Repr

/-- A Supabase/Postgres error as seen by the handler: a string `code` and a
string `message` (lines 112-124). -/
structure DBError where
  code : String
  message : String
deriving DecidableEq, Repr

/-- The row literal handed to `.insert` (lines 100-109). -/
structure SubmissionRow where
  product_url : Option String
  budget : JSNum
  material : Option String
  extra_comments : Option String
  name : Option String
  phone_number : Option String
deriving DecidableEq, Repr

/-- Outcome of the storage upload call (line 77-79): either an error or
`storageData.path`. -/
inductive UploadResult where
  | failure
  | success (path : String)
deriving DecidableEq, Repr

/-- External world supplying the outcomes of the handler's calls:
`Date.now()`, the storage upload result, the (synchronous, non-failing)
`getPublicUrl` resolution, and the `error` field of the insert response. -/
structure Env where
  now : Nat
  uploadResult : UploadResult
  publicUrlFor : String → String
  insertError : Option DBError

/-- Calls the handler makes, in order. `consoleError` records the catch
block's `console.error` of a thrown error's message (line 142); the other
logging of raw store objects (lines 82, 113, 127) is not modelled. -/
inductive Effect where
  | storageUpload (objectName : String) (file : ImageFile)
  | getPublicUrl (path : String)
  | insert (row : SubmissionRow)
  | consoleError (msg : String)
deriving DecidableEq, Repr

/-! ### The handler's pure pieces -/

/-- The validation chain of `handleSubmit` (lines 34-70): the message of the
first failing check, or `none` when all six checks pass. -/
def validationError (ut : UploadType) (img : Option ImageFile) (fd : FormData) : Option String :=
  if ut = .file ∧ img = none then some "Please upload a product image"
  else if ut = .url ∧ jsTrim fd.productUrl = "" then some "Please enter a product URL"
  else if jsTrim fd.budget = "" then some "Please enter your budget"
  else if jsTrim fd.name = "" then some "Please enter your name"
  else if jsTrim fd.phone = "" then some "Please enter your phone number"
  else if (parseFloat fd.budget).isNaN then some "Please enter a valid budget amount"
  else none

/-- The insert error-code mapping (lines 114-124): the message of the
`Error` thrown for a store error. -/
def insertErrorMessage (e : DBError) : String :=
  if e.code = "23505" then "This submission already exists"
  else if e.code = "42P01" then "Table not found. Please check your database setup"
  else if e.code = "42703" then "Invalid column name. Please check the form fields"
  else if e.code = "23502" then "Required field missing"
  else "Database error: " ++ e.message

/-- The catch block's user-facing message (line 143), shown for every
thrown error regardless of its own message. -/
def genericSubmitError : String :=
  "There was an error submitting your request. Please try again."

/-- The row literal of the insert call (lines 100-109): `x.trim() || null`
turns empty-after-trim text into `null`. -/
def buildRow (imageUrl : Option String) (budgetNum : JSNum) (fd : FormData) : SubmissionRow :=
  { product_url := imageUrl
    budget := budgetNum
    material := if jsTrim fd.material = "" then none else some (jsTrim fd.material)
    extra_comments := if jsTrim fd.comments = "" then none else some (jsTrim fd.comments)
    name := if jsTrim fd.name = "" then none else some (jsTrim fd.name)
    phone_number := if jsTrim fd.phone = "" then none else some (jsTrim fd.phone) }

/-! ### The handler as a suspendable machine

`handleSubmit` is `async` with two `await` points: the storage upload
(line 77) and the record insert (line 98). It is split at those points;
a `Phase` is a pending suspension, and each call is recorded in the trace
at the moment it is issued. -/

/-- A suspension of `handleSubmit`. `awaitingUpload` carries `budgetNum`,
the only local computed before the `try` block that the continuation still
needs; `awaitingInsert` needs nothing (the insert call is already issued). -/
inductive Phase where
  | awaitingUpload (budgetNum : JSNum)
  | awaitingInsert
deriving DecidableEq, Repr

/-- The synchronous run of `handleSubmit` from entry to its first `await`
(or to an early `return`): lines 28-70 and the branch at 72-110. Returns
the session after this segment, the pending suspension (if any), and the
calls issued. -/
def startSubmit (st : SessionState) (now : Nat) : (SessionState × Option Phase) × List Effect :=
  let stGo : SessionState := { st with isSubmitting := true, submitError := "" }
  match validationError st.uploadType st.selectedImage st.formData with
  | some msg => (({ stGo with isSubmitting := false, submitError := msg }, none), [])
  | none =>
    let budgetNum := parseFloat st.formData.budget
    match st.uploadType, st.selectedImage with
    | .file, some img =>
        let objectName := toString now ++ "-" ++ img.name
        ((stGo, some (.awaitingUpload budgetNum)), [.storageUpload objectName img])
    | .url, _ =>
        let imageUrl := some (jsTrim st.formData.productUrl)
        ((stGo, some .awaitingInsert), [.insert (buildRow imageUrl budgetNum st.formData)])
    | .file, none =>
        ((stGo, some .awaitingInsert), [.insert (buildRow none budgetNum st.formData)])

/-- Resumption after the upload `await` (lines 81-110): on storage error the
thrown `Failed to upload image` reaches the catch/finally blocks (lines
141-146); on success `getPublicUrl` resolves synchronously and the insert
call is issued, suspending again. -/
def resumeUpload (st : SessionState) (budgetNum : JSNum) (res : UploadResult)
    (publicUrlFor : String → String) : (SessionState × Option Phase) × List Effect :=
  match res with
  | .failure =>
      ((({ st with isSubmitting := false, submitError := genericSubmitError }), none),
        [.consoleError "Failed to upload image"])
  | .success path =>
      let imageUrl := some (publicUrlFor path)
      ((st, some .awaitingInsert),
        [.getPublicUrl path, .insert (buildRow imageUrl budgetNum st.formData)])

/-- Resumption after the insert `await` (lines 112-146): a store error is
mapped to a thrown message, logged by the catch block, and the user sees
the generic message; on success the draft is reset. Both paths clear
`isSubmitting` in `finally`. -/
def resumeInsert (st : SessionState) (insertError : Option DBError) :
    SessionState × List Effect :=
  match insertError with
  | some e =>
      ({ st with isSubmitting := false, submitError := genericSubmitError },
        [.consoleError (insertErrorMessage e)])
  | none =>
      ({ st with formData := emptyFormData, selectedImage := none, isSubmitting := false }, [])

/-- Drive a suspension to completion with the environment's outcomes.
(After a successful upload the only possible next suspension is the
insert await.) -/
def resumeFrom (st : SessionState) (ph : Phase) (env : Env) : SessionState × List Effect :=
  match ph with
  | .awaitingInsert => resumeInsert st env.insertError
  | .awaitingUpload budgetNum =>
      match resumeUpload st budgetNum env.uploadResult env.publicUrlFor with
      | ((st1, none), tr) => (st1, tr)
      | ((st1, some _), tr) =>
          let (st2, tr2) := resumeInsert st1 env.insertError
          (st2, tr ++ tr2)

/-- A whole run of `handleSubmit`: the synchronous start segment followed
by its resumptions, with the final session and the full call trace. -/
def handleSubmit (st : SessionState) (env : Env) : SessionState × List Effect :=
  match startSubmit st env.now with
  | ((st1, none), tr) => (st1, tr)
  | ((st1, some ph), tr) =>
      let (st2, tr2) := resumeFrom st1 ph env
      (st2, tr ++ tr2)

/-- A click of the submit button (lines 168-175): the button carries
`disabled=isSubmitting`, so a click while a submission is in flight does
nothing; otherwise it triggers a `handleSubmit` run. -/
def submitClick (st : SessionState) (env : Env) : SessionState × List Effect :=
  if st.isSubmitting then (st, []) else handleSubmit st env

/-- Two submit triggers in rapid succession: the second click arrives while
the first run sits at its first suspension point (if the first run finished
synchronously, the second click simply runs afterwards). -/
def doubleSubmit (st : SessionState) (env : Env) : SessionState × List Effect :=
  match startSubmit st env.now with
  | ((st1, none), tr) =>
      let (st2, tr2) := submitClick st1 env
      (st2, tr ++ tr2)
  | ((st1, some ph), tr) =>
      let (stc, trc) := submitClick st1 env
      let (st2, tr2) := resumeFrom stc ph env
      (st2, tr ++ trc ++ tr2)

/-- Whether an effect is a record-store insert call. -/
def Effect.isInsert : Effect → Bool
  | .insert _ => true
  | _ => false

/-! ### Spec-side definitions

The specification's §4.1 presents the validator as an ordered table of
checks, each a predicate paired with a reason, with the first failing
check's reason returned. These definitions transcribe that table so the
code's validation chain can be compared against it. -/

/-- The ordered check table of spec §4.1 in the spec's own wording, with
the code's concrete reason strings; its sixth check fails whenever the
budget "does not parse as a finite decimal number", so also on budgets
parsing to an infinity. -/
def specCheckTable (ut : UploadType) (img : Option ImageFile) (fd : FormData) :
    List (Bool × String) :=
  [ (decide (ut = .file ∧ img = none), "Please upload a product image"),
    (decide (ut = .url ∧ jsTrim fd.productUrl = ""), "Please enter a product URL"),
    (decide (jsTrim fd.budget = ""), "Please enter your budget"),
    (decide (jsTrim fd.name = ""), "Please enter your name"),
    (decide (jsTrim fd.phone = ""), "Please enter your phone number"),
    (!(parseFloat fd.budget).isFinite, "Please enter a valid budget amount") ]

/-- The reason of the first failing check of an ordered table. -/
def firstFailure (checks : List (Bool × String)) : Option String :=
  (checks.find? Prod.fst).map Prod.snd

/-! ### Sample sessions and environments used in concrete evaluations -/

/-- A fully populated draft in URL mode (budget `"12.5"`). -/
def urlDraft : FormData :=
  ⟨" https://ex.com/p ", "12.5", "", " hi ", "Ana", "555"⟩

/-- A URL-mode session holding `urlDraft`, not yet submitting. -/
def urlSession : SessionState :=
  ⟨urlDraft, none, .url, false, ""⟩

/-- A FILE-mode session holding `urlDraft` and a selected image. -/
def fileSession : SessionState :=
  ⟨urlDraft, some ⟨"img.png"⟩, .file, false, ""⟩

/-- An environment where every network call succeeds. -/
def okEnv : Env :=
  ⟨7, .success "pth", fun p => "https://pub/" ++ p, none⟩

/-- `okEnv` with the insert failing on a Postgres unique violation. -/
def dupErrEnv : Env :=
  { okEnv with insertError := some ⟨"23505", "duplicate key value"⟩ }

/-- A URL-mode draft whose budget text is `"Infinity"`. -/
def infinityDraft : FormData :=
  ⟨"https://ex.com/p", "Infinity", "", "", "Ana", "555"⟩

/-- A URL-mode session holding `infinityDraft`. -/
def infinitySession : SessionState :=
  ⟨infinityDraft, none, .url, false, ""⟩

/-! ### Sample evaluations of the JS primitives -/

example : parseFloat "12.5" = .fin (25 / 2) := by
  simp [parseFloat, parseFloatCore, parseDecMantissa, expVal, digitsToNat, isJSWhitespace,
    tenPow, List.takeWhile, List.dropWhile]
  norm_num
example : parseFloat "abc" = .nan := by decide
example : parseFloat "Infinity" = .posInf := by decide
example : parseFloat " -3e2xyz" = .fin (-300) := by
  simp [parseFloat, parseFloatCore, parseDecMantissa, expVal, expSignedVal, expDigitsVal,
    digitsToNat, isJSWhitespace, tenPow, List.takeWhile, List.dropWhile]
  norm_num
example : jsTrim "  a b  " = "a b" := by decide

/-! ### Helper lemmas -/

/-- Every row handed to the insert call is the `buildRow` image of the
session's form data and parsed budget, for some image address. -/
theorem insert_row_shape (st : SessionState) (env : Env) (row : SubmissionRow)
    (h : Effect.insert row ∈ (handleSubmit st env).2) :
    ∃ u, row = buildRow u (parseFloat st.formData.budget) st.formData := by
  rcases hu : st.uploadType with _ | _ <;>
    rcases hi : st.selectedImage with _ | img <;>
    rcases hv : validationError st.uploadType st.selectedImage st.formData with _ | msg <;>
    rcases hr : env.uploadResult with _ | path <;>
    rcases he : env.insertError with _ | e <;>
    rw [hu, hi] at hv <;>
    simp [handleSubmit, startSubmit, resumeFrom, resumeUpload, resumeInsert,
      hv, hu, hi, hr, he] at h <;>
    exact ⟨_, h⟩

/-! ### Claim theorems -/

/-- C3 (amended): the validator evaluates its six checks in the fixed
order of spec §4.1 — (1) FILE mode with no image, (2) URL mode with blank
productUrl, (3) blank budget, (4) blank name, (5) blank phone — but its
sixth check is the code's `isNaN(parseFloat(budget))`, not the spec's
"does not parse as a finite decimal number": on every draft whose budget
does not parse to an infinity, the validator returns exactly the reason of
the first failing check of the spec's ordered table; and in FILE mode with
no selected file it returns the missing-image reason whatever `productUrl`
holds. -/
theorem validator_checks_in_fixed_order (ut : UploadType) (img : Option ImageFile)
    (fd : FormData) (hpi : parseFloat fd.budget ≠ .posInf)
    (hni : parseFloat fd.budget ≠ .negInf) :
    validationError ut img fd = firstFailure (specCheckTable ut img fd) ∧
    (ut = .file → img = none →
      validationError ut img fd = some "Please upload a product image") := by
  constructor
  · have hb : (parseFloat fd.budget).isNaN = !(parseFloat fd.budget).isFinite := by
      rcases hq : parseFloat fd.budget with _ | _ | _ | q
      · rfl
      · exact absurd hq hpi
      · exact absurd hq hni
      · rfl
    cases ut <;> cases img <;>
      (simp only [validationError, specCheckTable, firstFailure, List.find?, hb]
       split_ifs <;> simp_all)
  · intro h1 h2
    simp [validationError, h1, h2]

/-- Witness for C3 (amended): a FILE-mode draft with no file but a
populated `productUrl` (budget `"12.5"`, not an infinity) is rejected with
exactly the missing-image reason, which is also the first failure of the
spec's check table. -/
theorem validator_checks_in_fixed_order_witness :
    validationError .file none urlDraft = firstFailure (specCheckTable .file none urlDraft) ∧
    validationError .file none urlDraft = some "Please upload a product image" :=
  ⟨(validator_checks_in_fixed_order .file none urlDraft (by decide) (by decide)).1,
   (validator_checks_in_fixed_order .file none urlDraft (by decide) (by decide)).2 rfl rfl⟩

/-- Counterexample to C3 as stated: at budget `"Infinity"` (URL mode,
every other field valid) the first failing check of the claim's table is
the invalid-budget one — the budget does not parse as a finite decimal
number — yet the validator returns no reason at all, so it does not return
the reason of the first failing check. -/
theorem validator_spec_table_counterexample :
    firstFailure (specCheckTable infinitySession.uploadType infinitySession.selectedImage
      infinityDraft) = some "Please enter a valid budget amount" ∧
    validationError infinitySession.uploadType infinitySession.selectedImage infinityDraft =
      none ∧
    validationError infinitySession.uploadType infinitySession.selectedImage infinityDraft ≠
      firstFailure (specCheckTable infinitySession.uploadType infinitySession.selectedImage
        infinityDraft) := by
  refine ⟨by decide, by decide, by decide⟩

/-- C6: when validation fails, the attempt ends in ERROR carrying the
first-failing reason, no call is made (empty trace: no upload, no address
resolution, no insert), and the draft fields are left untouched. -/
theorem validation_failure_is_local (st : SessionState) (env : Env) (msg : String)
    (h : validationError st.uploadType st.selectedImage st.formData = some msg) :
    (handleSubmit st env).1.formData = st.formData ∧
    (handleSubmit st env).1.selectedImage = st.selectedImage ∧
    (handleSubmit st env).1.submitError = msg ∧
    (handleSubmit st env).1.isSubmitting = false ∧
    (handleSubmit st env).2 = [] := by
  simp [handleSubmit, startSubmit, h]

/-- Witness for C6: a FILE-mode session with no selected image keeps its
draft, reports the missing-image reason, and makes no call. -/
theorem validation_failure_is_local_witness :
    (handleSubmit ⟨urlDraft, none, .file, false, ""⟩ okEnv).1.formData = urlDraft ∧
    (handleSubmit ⟨urlDraft, none, .file, false, ""⟩ okEnv).1.selectedImage = none ∧
    (handleSubmit ⟨urlDraft, none, .file, false, ""⟩ okEnv).1.submitError =
      "Please upload a product image" ∧
    (handleSubmit ⟨urlDraft, none, .file, false, ""⟩ okEnv).1.isSubmitting = false ∧
    (handleSubmit ⟨urlDraft, none, .file, false, ""⟩ okEnv).2 = [] :=
  validation_failure_is_local ⟨urlDraft, none, .file, false, ""⟩ okEnv
    "Please upload a product image" (by decide)

/-- C5: in URL mode with a non-blank productUrl the Object Store Client is
never touched — no upload and no address resolution appear in the trace —
and any inserted row carries exactly the trimmed productUrl. -/
theorem url_mode_skips_object_store (st : SessionState) (env : Env)
    (hu : st.uploadType = .url) (hp : jsTrim st.formData.productUrl ≠ "") :
    (∀ n f, Effect.storageUpload n f ∉ (handleSubmit st env).2) ∧
    (∀ p, Effect.getPublicUrl p ∉ (handleSubmit st env).2) ∧
    ∀ row, Effect.insert row ∈ (handleSubmit st env).2 →
      row.product_url = some (jsTrim st.formData.productUrl) := by
  rcases hv : validationError st.uploadType st.selectedImage st.formData with _ | msg <;>
    rcases he : env.insertError with _ | e <;>
    rw [hu] at hv <;>
    simp [handleSubmit, startSubmit, resumeFrom, resumeInsert, buildRow, hu, hv, he]

/-- Witness for C5: submitting `urlSession` against a succeeding
environment uploads nothing, resolves nothing, and inserts the trimmed
productUrl. -/
theorem url_mode_skips_object_store_witness :
    Effect.storageUpload "7-img.png" ⟨"img.png"⟩ ∉ (handleSubmit urlSession okEnv).2 ∧
    Effect.getPublicUrl "pth" ∉ (handleSubmit urlSession okEnv).2 ∧
    (buildRow (some "https://ex.com/p") (parseFloat "12.5") urlDraft).product_url =
      some (jsTrim urlSession.formData.productUrl) :=
  ⟨(url_mode_skips_object_store urlSession okEnv (by decide) (by decide)).1 _ _,
   (url_mode_skips_object_store urlSession okEnv (by decide) (by decide)).2.1 _,
   (url_mode_skips_object_store urlSession okEnv (by decide) (by decide)).2.2 _
     (List.Mem.head _)⟩

/-- C7: in any inserted row, `material` and `extra_comments` are null
whenever the corresponding draft field is blank after trimming, and are
never the empty string. -/
theorem optional_fields_normalize_to_null (st : SessionState) (env : Env)
    (row : SubmissionRow) (h : Effect.insert row ∈ (handleSubmit st env).2) :
    (jsTrim st.formData.material = "" → row.material = none) ∧
    (jsTrim st.formData.comments = "" → row.extra_comments = none) ∧
    row.material ≠ some "" ∧ row.extra_comments ≠ some "" := by
  obtain ⟨u, rfl⟩ := insert_row_shape st env row h
  refine ⟨fun hm => by simp [buildRow, hm], fun hc => by simp [buildRow, hc], ?_, ?_⟩ <;>
    (simp only [buildRow]; split_ifs <;> simp_all)

/-- Witness for C7: the run of `urlSession` (blank material, whitespace
comments trimmed to `"hi"`) inserts null material and non-empty comments. -/
theorem optional_fields_normalize_to_null_witness :
    (buildRow (some "https://ex.com/p") (parseFloat "12.5") urlDraft).material = none ∧
    (buildRow (some "https://ex.com/p") (parseFloat "12.5") urlDraft).material ≠ some "" ∧
    (buildRow (some "https://ex.com/p") (parseFloat "12.5") urlDraft).extra_comments ≠ some "" :=
  ⟨(optional_fields_normalize_to_null urlSession okEnv
      (buildRow (some "https://ex.com/p") (parseFloat "12.5") urlDraft)
      (List.Mem.head _)).1 (by decide),
   (optional_fields_normalize_to_null urlSession okEnv
      (buildRow (some "https://ex.com/p") (parseFloat "12.5") urlDraft)
      (List.Mem.head _)).2.2.1,
   (optional_fields_normalize_to_null urlSession okEnv
      (buildRow (some "https://ex.com/p") (parseFloat "12.5") urlDraft)
      (List.Mem.head _)).2.2.2⟩

/-- C10: for a draft that passes validation, every row handed to the
insert call has a non-null `product_url`: the null-initialised image
address is always assigned before the insert. -/
theorem valid_draft_row_has_product_url (st : SessionState) (env : Env)
    (row : SubmissionRow)
    (hv : validationError st.uploadType st.selectedImage st.formData = none)
    (h : Effect.insert row ∈ (handleSubmit st env).2) :
    row.product_url ≠ none := by
  rcases hu : st.uploadType with _ | _ <;>
    rcases hi : st.selectedImage with _ | img <;>
    rcases hr : env.uploadResult with _ | path <;>
    rcases he : env.insertError with _ | e <;>
    rw [hu, hi] at hv <;>
    first
      | (simp [validationError] at hv; done)
      | (simp [handleSubmit, startSubmit, resumeFrom, resumeUpload, resumeInsert,
          hv, hu, hi, hr, he] at h
         simp [h, buildRow])
      | (simp [handleSubmit, startSubmit, resumeFrom, resumeUpload, resumeInsert,
          hv, hu, hi, hr, he] at h)

/-- Witness for C10: the row inserted for `urlSession` has a non-null
`product_url`. -/
theorem valid_draft_row_has_product_url_witness :
    (buildRow (some "https://ex.com/p") (parseFloat "12.5") urlDraft).product_url ≠ none :=
  valid_draft_row_has_product_url urlSession okEnv
    (buildRow (some "https://ex.com/p") (parseFloat "12.5") urlDraft)
    (by decide)
    (List.Mem.head _)

/-- C8: an attempt that reaches SUCCESS (validation passes, the upload
succeeds when one is needed, the insert reports no error) resets the draft
to its empty default: all six text fields empty and no selected image. -/
theorem success_resets_draft (st : SessionState) (env : Env)
    (hv : validationError st.uploadType st.selectedImage st.formData = none)
    (hup : st.uploadType = .file → env.uploadResult ≠ .failure)
    (hins : env.insertError = none) :
    (handleSubmit st env).1.formData = emptyFormData ∧
    (handleSubmit st env).1.selectedImage = none ∧
    (handleSubmit st env).1.isSubmitting = false ∧
    (handleSubmit st env).1.submitError = "" := by
  rcases hu : st.uploadType with _ | _ <;>
    rcases hi : st.selectedImage with _ | img <;>
    rcases hr : env.uploadResult with _ | path <;>
    rw [hu, hi] at hv <;>
    first
      | (simp [validationError] at hv; done)
      | exact absurd hr (hup hu)
      | simp [handleSubmit, startSubmit, resumeFrom, resumeUpload, resumeInsert,
          hv, hu, hi, hr, hins]

/-- Witness for C8: a successful run of `urlSession` ends with the empty
draft, no image, the flag released and no error message. -/
theorem success_resets_draft_witness :
    (handleSubmit urlSession okEnv).1.formData = emptyFormData ∧
    (handleSubmit urlSession okEnv).1.selectedImage = none ∧
    (handleSubmit urlSession okEnv).1.isSubmitting = false ∧
    (handleSubmit urlSession okEnv).1.submitError = "" :=
  success_resets_draft urlSession okEnv (by decide)
    (fun h => by simp [urlSession] at h) rfl

/-- C9: the SUBMITTING flag discipline — a whole run always ends with the
flag cleared (validation failure, upload failure, insert failure and
success alike), the flag is raised whenever the start segment reaches a
suspension point (so it is up before the first await), and a resumption
that suspends again keeps it up. -/
theorem submitting_flag_discipline (st : SessionState) (env : Env) (b : JSNum)
    (stp : SessionState) :
    (handleSubmit st env).1.isSubmitting = false ∧
    ((startSubmit st env.now).1.2 ≠ none → (startSubmit st env.now).1.1.isSubmitting = true) ∧
    (stp.isSubmitting = true →
      (resumeUpload stp b env.uploadResult env.publicUrlFor).1.2 ≠ none →
      (resumeUpload stp b env.uploadResult env.publicUrlFor).1.1.isSubmitting = true) := by
  refine ⟨?_, ?_, ?_⟩
  · rcases hu : st.uploadType with _ | _ <;>
      rcases hi : st.selectedImage with _ | img <;>
      rcases hv : validationError st.uploadType st.selectedImage st.formData with _ | msg <;>
      rcases hr : env.uploadResult with _ | path <;>
      rcases he : env.insertError with _ | e <;>
      rw [hu, hi] at hv <;>
      simp [handleSubmit, startSubmit, resumeFrom, resumeUpload, resumeInsert,
        hv, hu, hi, hr, he]
  · intro hph
    rcases hu : st.uploadType with _ | _ <;>
      rcases hi : st.selectedImage with _ | img <;>
      rcases hv : validationError st.uploadType st.selectedImage st.formData with _ | msg <;>
      rw [hu, hi] at hv <;>
      simp [startSubmit, hv, hu, hi] at hph ⊢
  · intro hs hph
    rcases hr : env.uploadResult with _ | path <;>
      simp [resumeUpload, hr, hs] at hph ⊢

/-- Witness for C9: a successful URL-mode run ends with the flag cleared;
the start segment of that run suspends with the flag raised; a FILE-mode
resumption after a successful upload keeps a raised flag raised. -/
theorem submitting_flag_discipline_witness :
    (handleSubmit urlSession okEnv).1.isSubmitting = false ∧
    (startSubmit urlSession okEnv.now).1.1.isSubmitting = true ∧
    (resumeUpload ⟨urlDraft, some ⟨"img.png"⟩, .file, true, ""⟩ (parseFloat "12.5")
      okEnv.uploadResult okEnv.publicUrlFor).1.1.isSubmitting = true :=
  ⟨(submitting_flag_discipline urlSession okEnv (parseFloat "12.5")
      ⟨urlDraft, some ⟨"img.png"⟩, .file, true, ""⟩).1,
   (submitting_flag_discipline urlSession okEnv (parseFloat "12.5")
      ⟨urlDraft, some ⟨"img.png"⟩, .file, true, ""⟩).2.1 (by decide),
   (submitting_flag_discipline urlSession okEnv (parseFloat "12.5")
      ⟨urlDraft, some ⟨"img.png"⟩, .file, true, ""⟩).2.2 rfl (by decide)⟩

/-- C2: a submit trigger while a submission is in flight is a no-op (the
button is disabled), so two triggers in rapid succession — the second
arriving while the first sits at a suspension point — behave exactly like
one run and produce exactly one insert call. -/
theorem double_submit_single_insert (st : SessionState) (env : Env)
    (h0 : st.isSubmitting = false)
    (hv : validationError st.uploadType st.selectedImage st.formData = none)
    (hup : st.uploadType = .file → env.uploadResult ≠ .failure) :
    doubleSubmit st env = handleSubmit st env ∧
    (doubleSubmit st env).2.countP Effect.isInsert = 1 ∧
    ∀ s : SessionState, s.isSubmitting = true → submitClick s env = (s, []) := by
  refine ⟨?_, ?_, fun s hs => by simp [submitClick, hs]⟩ <;>
    rcases hu : st.uploadType with _ | _ <;>
    rcases hi : st.selectedImage with _ | img <;>
    rcases hr : env.uploadResult with _ | path <;>
    rcases he : env.insertError with _ | e <;>
    rw [hu, hi] at hv <;>
    first
      | (simp [validationError] at hv; done)
      | exact absurd hr (hup hu)
      | simp [doubleSubmit, handleSubmit, submitClick, startSubmit, resumeFrom,
          resumeUpload, resumeInsert, hv, hu, hi, hr, he, Effect.isInsert]

/-- Witness for C2: double-triggering `urlSession` against the succeeding
environment equals a single run and inserts exactly once. -/
theorem double_submit_single_insert_witness :
    doubleSubmit urlSession okEnv = handleSubmit urlSession okEnv ∧
    (doubleSubmit urlSession okEnv).2.countP Effect.isInsert = 1 ∧
    submitClick ⟨urlDraft, none, .url, true, ""⟩ okEnv = (⟨urlDraft, none, .url, true, ""⟩, []) :=
  ⟨(double_submit_single_insert urlSession okEnv rfl (by decide)
      (fun h => by simp [urlSession] at h)).1,
   (double_submit_single_insert urlSession okEnv rfl (by decide)
      (fun h => by simp [urlSession] at h)).2.1,
   (double_submit_single_insert urlSession okEnv rfl (by decide)
      (fun h => by simp [urlSession] at h)).2.2 ⟨urlDraft, none, .url, true, ""⟩ rfl⟩

/-- C1 (amended): on an insert failure the handler maps the store code to
the message of the thrown error — `23505` to "This submission already
exists", an unmapped code to "Database error: " followed by the store
message — and the catch block logs that message, but the ERROR state's
user-visible message is always the generic retry message, not the mapped
one. -/
theorem insert_error_shows_generic_message (st : SessionState) (env : Env) (e : DBError)
    (hv : validationError st.uploadType st.selectedImage st.formData = none)
    (hup : st.uploadType = .file → env.uploadResult ≠ .failure)
    (he : env.insertError = some e) :
    (handleSubmit st env).1.submitError = genericSubmitError ∧
    Effect.consoleError (insertErrorMessage e) ∈ (handleSubmit st env).2 ∧
    (∀ m, insertErrorMessage ⟨"23505", m⟩ = "This submission already exists") ∧
    insertErrorMessage ⟨"99999", "timeout"⟩ = "Database error: timeout" := by
  refine ⟨?_, ?_, fun m => by simp +decide [insertErrorMessage], by decide⟩ <;>
    rcases hu : st.uploadType with _ | _ <;>
    rcases hi : st.selectedImage with _ | img <;>
    rcases hr : env.uploadResult with _ | path <;>
    rw [hu, hi] at hv <;>
    first
      | (simp [validationError] at hv; done)
      | exact absurd hr (hup hu)
      | simp [handleSubmit, startSubmit, resumeFrom, resumeUpload, resumeInsert,
          hv, hu, hi, hr, he]

/-- Witness for C1 (amended): a unique-violation insert failure on
`urlSession` ends with the generic message and logs the mapped one. -/
theorem insert_error_shows_generic_message_witness :
    (handleSubmit urlSession dupErrEnv).1.submitError = genericSubmitError ∧
    Effect.consoleError (insertErrorMessage ⟨"23505", "duplicate key value"⟩) ∈
      (handleSubmit urlSession dupErrEnv).2 ∧
    insertErrorMessage ⟨"23505", "duplicate key value"⟩ = "This submission already exists" ∧
    insertErrorMessage ⟨"99999", "timeout"⟩ = "Database error: timeout" :=
  ⟨(insert_error_shows_generic_message urlSession dupErrEnv ⟨"23505", "duplicate key value"⟩
      (by decide) (fun h => by simp [urlSession] at h) rfl).1,
   (insert_error_shows_generic_message urlSession dupErrEnv ⟨"23505", "duplicate key value"⟩
      (by decide) (fun h => by simp [urlSession] at h) rfl).2.1,
   (insert_error_shows_generic_message urlSession dupErrEnv ⟨"23505", "duplicate key value"⟩
      (by decide) (fun h => by simp [urlSession] at h) rfl).2.2.1 "duplicate key value",
   (insert_error_shows_generic_message urlSession dupErrEnv ⟨"23505", "duplicate key value"⟩
      (by decide) (fun h => by simp [urlSession] at h) rfl).2.2.2⟩

/-- Counterexample to C1 as stated: on store code `23505`, the ERROR
state's user-visible message is the generic retry message, not
"This submission already exists" (the mapped message only reaches the
console log). -/
theorem insert_error_table_message_counterexample :
    (handleSubmit urlSession dupErrEnv).1.submitError ≠ "This submission already exists" ∧
    (handleSubmit urlSession dupErrEnv).1.submitError = genericSubmitError ∧
    Effect.consoleError "This submission already exists" ∈ (handleSubmit urlSession dupErrEnv).2 :=
  ⟨by decide, by decide, List.Mem.tail _ (List.Mem.head _)⟩

/-- C4 (amended): the budget check rejects exactly the budgets whose
`parseFloat` is NaN — with the five earlier checks passing, a NaN budget
yields the invalid-budget reason and an empty trace (no store call), and a
non-NaN budget passes validation even when it parses to an infinity —
every inserted row carries the parsed budget, `"12.5"` parses to the
rational 12.5, and `"abc"` parses to NaN. -/
theorem invalid_budget_rejects_nan (st : SessionState) (env : Env)
    (h1 : ¬(st.uploadType = .file ∧ st.selectedImage = none))
    (h2 : ¬(st.uploadType = .url ∧ jsTrim st.formData.productUrl = ""))
    (h3 : jsTrim st.formData.budget ≠ "")
    (h4 : jsTrim st.formData.name ≠ "")
    (h5 : jsTrim st.formData.phone ≠ "") :
    (parseFloat st.formData.budget = .nan →
      validationError st.uploadType st.selectedImage st.formData =
        some "Please enter a valid budget amount" ∧
      (handleSubmit st env).2 = []) ∧
    ((parseFloat st.formData.budget).isNaN = false →
      validationError st.uploadType st.selectedImage st.formData = none) ∧
    (∀ row, Effect.insert row ∈ (handleSubmit st env).2 →
      row.budget = parseFloat st.formData.budget) ∧
    parseFloat "12.5" = .fin (25 / 2) ∧
    parseFloat "abc" = .nan := by
  refine ⟨fun hn => ?_, fun hn => ?_, fun row h => ?_, ?_, by decide⟩
  · have hv : validationError st.uploadType st.selectedImage st.formData =
        some "Please enter a valid budget amount" := by
      simp [validationError, h1, h2, h3, h4, h5, hn, JSNum.isNaN]
    exact ⟨hv, by simp [handleSubmit, startSubmit, hv]⟩
  · simp [validationError, h1, h2, h3, h4, h5, hn]
  · obtain ⟨u, rfl⟩ := insert_row_shape st env row h
    simp [buildRow]
  · simp [parseFloat, parseFloatCore, parseDecMantissa, expVal, digitsToNat, isJSWhitespace,
      tenPow, List.takeWhile, List.dropWhile]
    norm_num

/-- Witness for C4 (amended): for `urlSession` (budget `"12.5"`) the five
earlier checks pass, validation succeeds, and the inserted row's budget is
the parsed value. -/
theorem invalid_budget_rejects_nan_witness :
    validationError urlSession.uploadType urlSession.selectedImage urlSession.formData = none ∧
    parseFloat "12.5" = .fin (25 / 2) ∧
    parseFloat "abc" = .nan :=
  ⟨(invalid_budget_rejects_nan urlSession okEnv (by decide) (by decide) (by decide)
      (by decide) (by decide)).2.1 (by decide),
   (invalid_budget_rejects_nan urlSession okEnv (by decide) (by decide) (by decide)
      (by decide) (by decide)).2.2.2.1,
   (invalid_budget_rejects_nan urlSession okEnv (by decide) (by decide) (by decide)
      (by decide) (by decide)).2.2.2.2⟩

/-- Counterexample to C4 as stated: the budget text `"Infinity"` does not
parse to a finite number, yet validation passes, the store insert is
called, and the invalid-budget reason is never shown. -/
theorem infinity_budget_counterexample :
    (parseFloat infinityDraft.budget).isFinite = false ∧
    validationError infinitySession.uploadType infinitySession.selectedImage
      infinitySession.formData = none ∧
    (handleSubmit infinitySession okEnv).2.countP Effect.isInsert = 1 ∧
    (handleSubmit infinitySession okEnv).1.submitError ≠ "Please enter a valid budget amount" := by
  refine ⟨by decide, by decide, by decide, by decide⟩

end Mvp
